import Mathlib

/-!
Shallow embedding of the retro arcade game (`src/game.js`) and proofs of the
specification claims about it.

The repository's `game.js` contains two concatenated revisions of the same
program.  The later revision (lines 767-1696) adds an audio-unlock gate and
visibility-gated collision handling; it is modelled here as the canonical
`update` / `AudioSystem`.  The earlier revision (lines 1-766) differs only in
its collision gating and is modelled as `updateV1` where a claim depends on it.

Modelling conventions:
  * sprite coordinates are rationals (`Rat`); the game engine's random number
    draws and trigonometric values are supplied by an `Oracle` argument, so
    every theorem quantifying over oracles covers every run of the program;
  * `Array.prototype.forEach` over a live, mutated array caches the length at
    entry and visits indices `0 .. n-1` of the current array, which is exactly
    `forEachIdx` below (a removal shifts later elements down, an append during
    iteration is never visited);
  * Web Audio primitives can throw; an `AudioEnv` argument says which ones do,
    and the embedded functions contain the `try`/`catch` logic of the source;
  * `setTimeout`-deferred beeps happen outside the frame callback and are not
    part of a tick; only the synchronously issued beep of each sound effect is
    threaded through the tick.
-/

/- `Rat` arithmetic is `@[irreducible]` in Batteries; the concrete witness and
counterexample states below are settled by `decide`, which needs these to
unfold. -/
attribute [local semireducible] Rat.add Rat.sub Rat.mul Rat.inv
  Rat.ofScientific

namespace RetroArcade

/-- Enemy behaviour tag (the `type` string field on enemy sprites). -/
inductive EnemyType where
  | random
  | chaser
  | patrol
deriving DecidableEq, Repr

/-- An enemy sprite: position, behaviour tag, patrol bookkeeping, visibility. -/
structure Enemy where
  x : Rat
  y : Rat
  etype : EnemyType
  moveCounter : Nat
  moveDirection : Nat
  visible : Bool
deriving DecidableEq, Repr

/-- A collectible sprite: position and visibility. -/
structure Collectible where
  x : Rat
  y : Rat
  visible : Bool
deriving DecidableEq, Repr

/-- State of a Web Audio context (`AudioContext.state`). -/
inductive CtxState where
  | suspended
  | running
deriving DecidableEq, Repr

/-- A Web Audio context; `id` records which construction produced it. -/
structure AudioCtx where
  id : Nat
  ctxState : CtxState
deriving DecidableEq, Repr

/-- One scheduled tone (the argument tuple of `createBeep`). -/
structure Tone where
  frequency : Rat
  duration : Rat
  wave : String
  volume : Rat
deriving DecidableEq, Repr

/-- Which Web Audio operations throw in the current environment, and what the
state of a freshly constructed context is.  Quantifying over `AudioEnv` covers
both the successful and the failing executions of the audio code. -/
structure AudioEnv where
  ctorFails : Bool
  newCtxState : CtxState
  beepFails : Bool
deriving DecidableEq, Repr

/-- The audio bookkeeping fields of the `gameState` record (`audioContext`,
`isAudioInitialized`, `isAudioUnlocked`), grouped into a sub-record: the
audio functions read and write only these fields.  `nextCtxId` counts
`new AudioContext()` constructions performed so far and is used as the id of
the next context, so "no second context is created" is the statement that
`nextCtxId` does not change. -/
structure AudioState where
  audioContext : Option AudioCtx
  isAudioInitialized : Bool
  isAudioUnlocked : Bool
  nextCtxId : Nat
deriving DecidableEq, Repr

/-- The single mutable `gameState` record of `game.js` (display-object handles
such as sprites and text objects are represented by their observable content:
positions, visibility and the HUD strings; the audio bookkeeping fields are
the `audio` sub-record). -/
structure GameState where
  playerX : Rat
  playerY : Rat
  playerVisible : Bool
  enemies : List Enemy
  collectibles : List Collectible
  score : Int
  scoreText : String
  health : Int
  healthText : String
  round : Int
  roundText : String
  enemySpeed : Int
  introComplete : Bool
  gameOver : Bool
  audio : AudioState
deriving DecidableEq, Repr

/-- Held cursor keys during one tick. -/
structure Input where
  left : Bool
  right : Bool
  up : Bool
  down : Bool
deriving DecidableEq, Repr

/-- Randomness consumed by one tick: `Phaser.Math.Between` draws for each
enemy index, the cosine/sine of the chaser angle, respawn positions, and the
`Phaser.Math.RND.pick` index for the new enemy type. -/
structure Oracle where
  randDX : Nat → Int
  randDY : Nat → Int
  chaserCos : Nat → Rat
  chaserSin : Nat → Rat
  patrolDir : Nat → Nat
  respawnX : Nat → Rat
  respawnY : Nat → Rat
  pickType : Nat
  newEnemyX : Rat
  newEnemyY : Rat
  newEnemyDir : Nat

/-! ### Game constants (`GAME_CONSTANTS` in `game.js`) -/

def WIDTH : Rat := 800
def HEIGHT : Rat := 600
def PLAYER_SPEED : Rat := 5
def ENEMY_SPEED : Int := 4
def ENEMY_COUNT : Nat := 5
def COLLECTIBLE_COUNT : Nat := 10
def PLAYER_SIZE : Rat := 32
def ENEMY_SIZE : Rat := 48
def COLLECTIBLE_SIZE : Rat := 32
def SCORE_PER_COLLECTIBLE : Int := 10
def DAMAGE_PER_ENEMY : Int := 10
def MAX_HEALTH : Int := 100

/-- `Phaser.Math.Clamp(value, min, max) = Math.max(min, Math.min(max, value))`. -/
def clamp (value lo hi : Rat) : Rat := max lo (min hi value)

/-- Squared Euclidean distance.  `Phaser.Math.Distance.Between p q < t` holds
for `t > 0` exactly when `distSq p q < t ^ 2`, which is how every collision
test below is phrased. -/
def distSq (x1 y1 x2 y2 : Rat) : Rat := (x2 - x1) ^ 2 + (y2 - y1) ^ 2

/-! ### Audio system (`AudioSystem` in the later `game.js` revision) -/

/-- `AudioSystem.init`: construct the context if there is none (the
construction may throw; the `catch` resets `isAudioInitialized`), then resume
it if it is suspended.  `resume()` is asynchronous in the source; its eventual
successful resolution is modelled as the state flipping to `running`. -/
def AudioSystem.init (env : AudioEnv) (a : AudioState) : AudioState :=
  match a.audioContext with
  | some ctx =>
      if ctx.ctxState = CtxState.suspended then
        { a with audioContext := some { ctx with ctxState := CtxState.running } }
      else a
  | none =>
      if env.ctorFails then
        { a with isAudioInitialized := false }
      else
        let ctx : AudioCtx := { id := a.nextCtxId, ctxState := env.newCtxState }
        if ctx.ctxState = CtxState.suspended then
          { a with audioContext :=
                     some { ctx with ctxState := CtxState.running },
                   isAudioInitialized := true, nextCtxId := a.nextCtxId + 1 }
        else
          { a with audioContext := some ctx, isAudioInitialized := true,
                   nextCtxId := a.nextCtxId + 1 }

/-- `AudioSystem.unlock`: no-op when already unlocked; otherwise initialise if
needed, then either play the silent unlock buffer and resume (suspended case)
or mark the audio as unlocked directly.  When `audioContext` is `none` the
source's `else` branch would throw reading `audioContext.state` before any
assignment, leaving the state unchanged, which is what the `none` case
returns. -/
def AudioSystem.unlock (env : AudioEnv) (a : AudioState) : AudioState :=
  if a.isAudioUnlocked then a
  else
    let a1 := if a.isAudioInitialized = false then AudioSystem.init env a
              else a
    match a1.audioContext with
    | some ctx =>
        if ctx.ctxState = CtxState.suspended then
          { a1 with audioContext :=
                      some { ctx with ctxState := CtxState.running },
                    isAudioUnlocked := true }
        else { a1 with isAudioUnlocked := true }
    | none => a1

/-- `AudioSystem.createBeep` of the later revision: dropped while the audio is
not unlocked, then initialised on demand, dropped if initialisation failed,
and the oscillator work is wrapped in `try`/`catch` (a playback failure is
swallowed and produces no tone). -/
def AudioSystem.createBeep (env : AudioEnv) (frequency duration : Rat)
    (wave : String) (volume : Rat) (a : AudioState) : AudioState × List Tone :=
  if a.isAudioUnlocked = false then (a, [])
  else
    let a1 := if a.isAudioInitialized = false then AudioSystem.init env a
              else a
    if a1.isAudioInitialized = false then (a1, [])
    else if env.beepFails then (a1, [])
    else (a1, [{ frequency := frequency, duration := duration,
                 wave := wave, volume := volume }])

/-- The state effect of one synchronous `createBeep` call (the tick discards
the tone list, which goes to the speakers, not to the game state). -/
def beepFst (env : AudioEnv) (frequency duration : Rat)
    (wave : String) (volume : Rat) (a : AudioState) : AudioState :=
  (AudioSystem.createBeep env frequency duration wave volume a).1

/-! ### Movement phase of `update` -/

/-- Player movement: one fixed step per held direction key (independent `if`s
in the later revision), then clamp to the bounds rectangle. -/
def movePlayer (inp : Input) (s : GameState) : GameState :=
  let x0 := if inp.left then s.playerX - PLAYER_SPEED else s.playerX
  let x1 := if inp.right then x0 + PLAYER_SPEED else x0
  let y0 := if inp.up then s.playerY - PLAYER_SPEED else s.playerY
  let y1 := if inp.down then y0 + PLAYER_SPEED else y0
  { s with playerX := clamp x1 PLAYER_SIZE (WIDTH - PLAYER_SIZE),
           playerY := clamp y1 PLAYER_SIZE (HEIGHT - PLAYER_SIZE) }

/-- Type-specific enemy displacement for the enemy at list index `i` (random
jitter, angle-seeking toward the player, or timed-direction patrol), before
clamping. -/
def moveEnemyCore (o : Oracle) (pv : Bool) (spd : Int) (i : Nat) (e : Enemy) :
    Enemy :=
  let speed : Rat := if e.etype = EnemyType.chaser then (spd : Rat) * (3 / 10)
                     else (spd : Rat)
  match e.etype with
  | EnemyType.random =>
      { e with x := e.x + (o.randDX i : Rat), y := e.y + (o.randDY i : Rat) }
  | EnemyType.chaser =>
      if pv then
        { e with x := e.x + o.chaserCos i * speed * (8 / 10),
                 y := e.y + o.chaserSin i * speed * (8 / 10) }
      else e
  | EnemyType.patrol =>
      let e1 := if 60 < e.moveCounter + 1 then
                  { e with moveCounter := 0, moveDirection := o.patrolDir i }
                else
                  { e with moveCounter := e.moveCounter + 1 }
      match e1.moveDirection with
      | 0 => { e1 with y := e1.y - speed * (7 / 10) }
      | 1 => { e1 with y := e1.y + speed * (7 / 10) }
      | 2 => { e1 with x := e1.x - speed * (7 / 10) }
      | 3 => { e1 with x := e1.x + speed * (7 / 10) }
      | _ => e1

/-- Move one enemy and keep it within bounds (the source clamps enemies with
the same `PLAYER_SIZE` margins as the player). -/
def moveEnemy (o : Oracle) (pv : Bool) (spd : Int) (i : Nat) (e : Enemy) :
    Enemy :=
  let m := moveEnemyCore o pv spd i e
  { m with x := clamp m.x PLAYER_SIZE (WIDTH - PLAYER_SIZE),
           y := clamp m.y PLAYER_SIZE (HEIGHT - PLAYER_SIZE) }

/-- Move every enemy, numbering them by their position in the group. -/
def moveEnemiesFrom (o : Oracle) (pv : Bool) (spd : Int) :
    Nat → List Enemy → List Enemy
  | _, [] => []
  | i, e :: rest =>
      moveEnemy o pv spd i e :: moveEnemiesFrom o pv spd (i + 1) rest

/-- The enemy-movement part of the tick. -/
def moveEnemies (o : Oracle) (s : GameState) : GameState :=
  { s with enemies :=
      moveEnemiesFrom o s.playerVisible s.enemySpeed 0 s.enemies }

/-! ### Collision phases of `update` -/

/-- `Array.prototype.forEach` over an array that the callback may mutate: the
length `fuel` is cached at entry, and the callback runs on indices
`k, k+1, ...` of the *current* array (`step` reads the current state, and a
missing index is a no-op inside `step`). -/
def forEachIdx (step : Nat → GameState → GameState) :
    Nat → Nat → GameState → GameState
  | 0, _, s => s
  | fuel + 1, k, s => forEachIdx step fuel (k + 1) (step k s)

/-- The ten collectibles respawned on a round clearance (fresh sprites are
visible). -/
def respawnCollectibles (o : Oracle) : List Collectible :=
  (List.range COLLECTIBLE_COUNT).map
    (fun i => { x := o.respawnX i, y := o.respawnY i, visible := true })

/-- `Phaser.Math.RND.pick(['random', 'chaser', 'patrol'])`: the pick always
returns an element of the array, so the oracle index is reduced mod 3. -/
def pickEnemyType (n : Nat) : EnemyType :=
  [EnemyType.random, EnemyType.chaser, EnemyType.patrol].getD (n % 3)
    EnemyType.random

/-- The enemy added on clearing a round (from round 2 on): fresh sprite,
random type, random direction. -/
def mkNewEnemy (o : Oracle) : Enemy :=
  { x := o.newEnemyX, y := o.newEnemyY, etype := pickEnemyType o.pickType,
    moveCounter := 0, moveDirection := o.newEnemyDir, visible := true }

/-- Body of the collectible collision handler once the distance test has
fired: remove the collectible, add the score, update the HUD, play the collect
blip, and if the group is now empty start the next round (advance the round
counter and HUD, raise the enemy speed, play the round sound, respawn all
collectibles, and from round 2 on add one randomly typed enemy).  The
source's sequential assignments are flattened into one record update per
control path; the only intermediate reads are the collectible count after the
removal (bound as `cols`) and the round after its increment (bound as `rd`),
so each flattened record is exactly the state the assignment sequence
produces. -/
def collectHit (o : Oracle) (env : AudioEnv) (k : Nat) (s : GameState) :
    GameState :=
  let cols := s.collectibles.eraseIdx k
  let sc := s.score + SCORE_PER_COLLECTIBLE
  let a1 := beepFst env 800 (1 / 10) "square" (3 / 20) s.audio
  if cols.length = 0 then
    let rd := s.round + 1
    let a2 := beepFst env 300 (2 / 10) "square" (2 / 10) a1
    let cols2 := cols ++ respawnCollectibles o
    if 2 ≤ rd then
      { s with collectibles := cols2, score := sc,
               scoreText := "Score: " ++ toString sc,
               round := rd, roundText := "Round: " ++ toString rd,
               enemySpeed := s.enemySpeed + 1,
               enemies := s.enemies ++ [mkNewEnemy o], audio := a2 }
    else
      { s with collectibles := cols2, score := sc,
               scoreText := "Score: " ++ toString sc,
               round := rd, roundText := "Round: " ++ toString rd,
               enemySpeed := s.enemySpeed + 1, audio := a2 }
  else
    { s with collectibles := cols, score := sc,
             scoreText := "Score: " ++ toString sc, audio := a1 }

/-- One step of the collectible `forEach` in the later revision: only a
visible collectible against a visible player is tested. -/
def collectOne (o : Oracle) (env : AudioEnv) (k : Nat) (s : GameState) :
    GameState :=
  match s.collectibles[k]? with
  | none => s
  | some c =>
      if c.visible && s.playerVisible then
        if distSq s.playerX s.playerY c.x c.y < COLLECTIBLE_SIZE ^ 2 then
          collectHit o env k s
        else s
      else s

/-- One step of the collectible `forEach` in the earlier revision: no
visibility test. -/
def collectOneV1 (o : Oracle) (env : AudioEnv) (k : Nat) (s : GameState) :
    GameState :=
  match s.collectibles[k]? with
  | none => s
  | some c =>
      if distSq s.playerX s.playerY c.x c.y < COLLECTIBLE_SIZE ^ 2 then
        collectHit o env k s
      else s

/-- Collectible phase of the later revision, gated on active gameplay. -/
def collectPhase (o : Oracle) (env : AudioEnv) (s : GameState) : GameState :=
  if s.introComplete && !s.gameOver then
    forEachIdx (collectOne o env) s.collectibles.length 0 s
  else s

/-- Collectible phase of the earlier revision (ungated). -/
def collectPhaseV1 (o : Oracle) (env : AudioEnv) (s : GameState) : GameState :=
  forEachIdx (collectOneV1 o env) s.collectibles.length 0 s

/-- Body of the enemy collision handler once the distance test has fired:
subtract the damage, update the HUD, play the damage sound, and when health
has dropped to `≤ 0` set the terminal game-over flag and hide the player, the
enemies and the collectibles (the game-over melody is entirely
`setTimeout`-deferred).  As in `collectHit` the assignment sequence is
flattened into one record update per control path; the only intermediate read
is the decremented health (bound as `h`). -/
def damageHit (env : AudioEnv) (s : GameState) : GameState :=
  let h := s.health - DAMAGE_PER_ENEMY
  let a1 := beepFst env 400 (2 / 10) "sawtooth" (2 / 10) s.audio
  if h ≤ 0 then
    { s with health := h, healthText := "Health: " ++ toString h,
             gameOver := true, playerVisible := false,
             enemies := s.enemies.map (fun e => { e with visible := false }),
             collectibles :=
               s.collectibles.map (fun c => { c with visible := false }),
             audio := a1 }
  else
    { s with health := h, healthText := "Health: " ++ toString h,
             audio := a1 }

/-- One step of the enemy `forEach` in the later revision: only a visible
enemy against a visible player is tested. -/
def damageOne (env : AudioEnv) (k : Nat) (s : GameState) : GameState :=
  match s.enemies[k]? with
  | none => s
  | some e =>
      if e.visible && s.playerVisible then
        if distSq s.playerX s.playerY e.x e.y < ENEMY_SIZE ^ 2 then
          damageHit env s
        else s
      else s

/-- One step of the enemy `forEach` in the earlier revision: no visibility
test, so contacts keep firing after the game-over transition inside the same
tick. -/
def damageOneV1 (env : AudioEnv) (k : Nat) (s : GameState) : GameState :=
  match s.enemies[k]? with
  | none => s
  | some e =>
      if distSq s.playerX s.playerY e.x e.y < ENEMY_SIZE ^ 2 then
        damageHit env s
      else s

/-- Enemy-damage phase of the later revision, gated on active gameplay. -/
def damagePhase (env : AudioEnv) (s : GameState) : GameState :=
  if s.introComplete && !s.gameOver then
    forEachIdx (damageOne env) s.enemies.length 0 s
  else s

/-- Enemy-damage phase of the earlier revision (ungated). -/
def damagePhaseV1 (env : AudioEnv) (s : GameState) : GameState :=
  forEachIdx (damageOneV1 env) s.enemies.length 0 s

/-! ### The per-frame `update` callbacks -/

/-- The later revision's `update`: freeze everything once `gameOver` is set,
otherwise move the player, move the enemies, run the collectible collisions
and then the enemy collisions. -/
def update (inp : Input) (env : AudioEnv) (o : Oracle) (s : GameState) :
    GameState :=
  if s.gameOver then s
  else damagePhase env (collectPhase o env (moveEnemies o (movePlayer inp s)))

/-- The earlier revision's `update`: same shape but with the ungated collision
phases. -/
def updateV1 (inp : Input) (env : AudioEnv) (o : Oracle) (s : GameState) :
    GameState :=
  if s.gameOver then s
  else
    damagePhaseV1 env (collectPhaseV1 o env (moveEnemies o (movePlayer inp s)))

/-- A whole play session: one `update` per frame, each with its own inputs and
randomness. -/
def runTicks : List (Input × AudioEnv × Oracle) → GameState → GameState
  | [], s => s
  | t :: ts, s => runTicks ts (update t.1 t.2.1 t.2.2 s)

/-- The gameplay-relevant projection of the state: every field except the
audio bookkeeping sub-record. -/
def gameplay (s : GameState) :=
  (s.playerX, s.playerY, s.playerVisible, s.enemies, s.collectibles, s.score,
   s.scoreText, s.health, s.healthText, s.round, s.roundText, s.enemySpeed,
   s.introComplete, s.gameOver)

/-! ### Concrete fixtures used by witnesses and counterexamples -/

/-- No key held. -/
def inp0 : Input := { left := false, right := false, up := false, down := false }

/-- An environment in which every Web Audio operation succeeds. -/
def env0 : AudioEnv :=
  { ctorFails := false, newCtxState := CtxState.suspended, beepFails := false }

/-- An environment in which oscillator playback throws. -/
def envFail : AudioEnv := { env0 with beepFails := true }

/-- An environment in which the AudioContext constructor throws. -/
def envCtorFail : AudioEnv := { env0 with ctorFails := true }

/-- Fixed randomness: zero jitter, axis-aligned chaser angle, constant
respawn and spawn positions, pick index 0. -/
def oracle0 : Oracle :=
  { randDX := fun _ => 0, randDY := fun _ => 0,
    chaserCos := fun _ => 1, chaserSin := fun _ => 0,
    patrolDir := fun _ => 0,
    respawnX := fun i => 50 + (i : Rat), respawnY := fun _ => 50,
    pickType := 0, newEnemyX := 100, newEnemyY := 100, newEnemyDir := 0 }

/-- The audio bookkeeping before any user gesture: no context, locked. -/
def audioLocked : AudioState :=
  { audioContext := none, isAudioInitialized := false,
    isAudioUnlocked := false, nextCtxId := 0 }

/-- An audio state that already holds a running context. -/
def aRunning : AudioState :=
  { audioContext := some { id := 0, ctxState := CtxState.running },
    isAudioInitialized := true, isAudioUnlocked := false, nextCtxId := 1 }

/-- A mid-game state: player centred and visible, full health, round 1,
initial enemy speed, intro finished, audio still locked. -/
def baseState : GameState :=
  { playerX := 400, playerY := 300, playerVisible := true,
    enemies := [], collectibles := [],
    score := 0, scoreText := "Score: 0",
    health := MAX_HEALTH, healthText := "Health: 100",
    round := 1, roundText := "Round: 1",
    enemySpeed := ENEMY_SPEED, introComplete := true, gameOver := false,
    audio := audioLocked }

/-- A visible random enemy sitting exactly on the player. -/
def eAt : Enemy :=
  { x := 400, y := 300, etype := EnemyType.random,
    moveCounter := 0, moveDirection := 0, visible := true }

/-- A collectible far away from the player (no pickup this tick). -/
def cFar : Collectible := { x := 700, y := 500, visible := true }

/-- A collectible exactly on the player. -/
def cAt : Collectible := { x := 400, y := 300, visible := true }

/-- Scenario state for one enemy contact at full health. -/
def sC2 : GameState := { baseState with enemies := [eAt], collectibles := [cFar] }

/-- State with health 10 and two enemies in contact: the tick that refutes the
health clamp on the earlier revision. -/
def sNeg : GameState :=
  { baseState with health := 10, enemies := [eAt, eAt], collectibles := [cFar] }

/-- State whose single collectible is about to be picked up (round clearance). -/
def sClear : GameState := { baseState with collectibles := [cAt] }

/-- A game-over state. -/
def sOver : GameState := { baseState with gameOver := true, health := 0 }

/-! ### Clamp bounds and the movement phase -/

theorem clamp_mem (v lo hi : Rat) (h : lo ≤ hi) :
    lo ≤ clamp v lo hi ∧ clamp v lo hi ≤ hi := by
  unfold clamp
  constructor
  · exact le_max_left lo _
  · exact max_le h (min_le_left hi v)

theorem movePlayer_bounds (inp : Input) (s : GameState) :
    (PLAYER_SIZE ≤ (movePlayer inp s).playerX ∧
      (movePlayer inp s).playerX ≤ WIDTH - PLAYER_SIZE) ∧
    (PLAYER_SIZE ≤ (movePlayer inp s).playerY ∧
      (movePlayer inp s).playerY ≤ HEIGHT - PLAYER_SIZE) := by
  refine ⟨clamp_mem _ _ _ ?_, clamp_mem _ _ _ ?_⟩ <;> decide

theorem moveEnemy_bounds (o : Oracle) (pv : Bool) (spd : Int) (i : Nat)
    (e : Enemy) :
    (PLAYER_SIZE ≤ (moveEnemy o pv spd i e).x ∧
      (moveEnemy o pv spd i e).x ≤ WIDTH - PLAYER_SIZE) ∧
    (PLAYER_SIZE ≤ (moveEnemy o pv spd i e).y ∧
      (moveEnemy o pv spd i e).y ≤ HEIGHT - PLAYER_SIZE) := by
  refine ⟨clamp_mem _ _ _ ?_, clamp_mem _ _ _ ?_⟩ <;> decide

theorem moveEnemiesFrom_mem (o : Oracle) (pv : Bool) (spd : Int) :
    ∀ (i : Nat) (l : List Enemy) (e : Enemy),
      e ∈ moveEnemiesFrom o pv spd i l →
      ∃ j e0, e = moveEnemy o pv spd j e0 := by
  intro i l
  induction l generalizing i with
  | nil =>
      intro e h
      simp only [moveEnemiesFrom] at h
      cases h
  | cons a rest ih =>
      intro e h
      simp only [moveEnemiesFrom] at h
      rcases List.mem_cons.mp h with h1 | h1
      · exact ⟨i, a, h1⟩
      · exact ih (i + 1) e h1

/-! ### The mutated-`forEach` loop -/

/-- Any property preserved by every step from index `k0` on is preserved by
the whole loop when it starts at an index `≥ k0`. -/
theorem forEachIdx_inv (step : Nat → GameState → GameState)
    (P : GameState → Prop) (k0 : Nat)
    (hstep : ∀ k s, k0 ≤ k → P s → P (step k s)) :
    ∀ (fuel k : Nat) (s : GameState), k0 ≤ k → P s →
      P (forEachIdx step fuel k s) := by
  intro fuel
  induction fuel with
  | zero => intro k s _ h; exact h
  | succ n ih =>
      intro k s hk h
      exact ih (k + 1) (step k s) (by omega) (hstep k s hk h)

/-! ### Field lemmas for the collectible collision step -/

theorem collectHit_frame (o : Oracle) (env : AudioEnv) (k : Nat)
    (s : GameState) :
    (collectHit o env k s).health = s.health ∧
    (collectHit o env k s).healthText = s.healthText ∧
    (collectHit o env k s).gameOver = s.gameOver ∧
    (collectHit o env k s).playerVisible = s.playerVisible ∧
    (collectHit o env k s).introComplete = s.introComplete ∧
    (collectHit o env k s).playerX = s.playerX ∧
    (collectHit o env k s).playerY = s.playerY := by
  unfold collectHit
  dsimp only
  repeat' split
  all_goals simp

theorem collectHit_score (o : Oracle) (env : AudioEnv) (k : Nat)
    (s : GameState) :
    (collectHit o env k s).score = s.score + SCORE_PER_COLLECTIBLE := by
  unfold collectHit
  dsimp only
  repeat' split
  all_goals simp

theorem collectHit_not_clear (o : Oracle) (env : AudioEnv) (k : Nat)
    (s : GameState) (h : s.collectibles.eraseIdx k ≠ []) :
    (collectHit o env k s).round = s.round ∧
    (collectHit o env k s).enemySpeed = s.enemySpeed ∧
    (collectHit o env k s).collectibles = s.collectibles.eraseIdx k ∧
    (collectHit o env k s).enemies = s.enemies := by
  unfold collectHit
  dsimp only
  rw [if_neg (by simpa using h)]
  simp

theorem collectHit_clear (o : Oracle) (env : AudioEnv) (k : Nat)
    (s : GameState) (h : s.collectibles.eraseIdx k = []) :
    (collectHit o env k s).round = s.round + 1 ∧
    (collectHit o env k s).roundText = "Round: " ++ toString (s.round + 1) ∧
    (collectHit o env k s).enemySpeed = s.enemySpeed + 1 ∧
    (collectHit o env k s).collectibles = respawnCollectibles o ∧
    ((2 ≤ s.round + 1 →
        (collectHit o env k s).enemies = s.enemies ++ [mkNewEnemy o]) ∧
      (¬ 2 ≤ s.round + 1 → (collectHit o env k s).enemies = s.enemies)) := by
  unfold collectHit
  dsimp only
  rw [if_pos (by simp [h])]
  rcases le_or_lt 2 (s.round + 1) with hr | hr
  · rw [if_pos hr]
    exact ⟨by simp [h], by simp [h], by simp [h], by simp [h],
      fun _ => by simp [h], fun hc => absurd hr hc⟩
  · rw [if_neg (by omega)]
    exact ⟨by simp [h], by simp [h], by simp [h], by simp [h],
      fun hc => absurd hc (by omega), fun _ => by simp [h]⟩

/-- The index under a successful `getElem?` is in range. -/
theorem lt_length_of_getElem? {α : Type} {l : List α} {k : Nat}
    {a : α} (h : l[k]? = some a) : k < l.length := by
  rcases List.getElem?_eq_some_iff.mp h with ⟨hlt, _⟩
  exact hlt

theorem collectOne_frame (o : Oracle) (env : AudioEnv) (k : Nat)
    (s : GameState) :
    (collectOne o env k s).health = s.health ∧
    (collectOne o env k s).healthText = s.healthText ∧
    (collectOne o env k s).gameOver = s.gameOver ∧
    (collectOne o env k s).playerVisible = s.playerVisible ∧
    (collectOne o env k s).introComplete = s.introComplete ∧
    (collectOne o env k s).playerX = s.playerX ∧
    (collectOne o env k s).playerY = s.playerY := by
  unfold collectOne
  rcases h : s.collectibles[k]? with _ | c <;> dsimp only
  · simp
  · split
    · split
      · exact collectHit_frame o env k s
      · simp
    · simp

/-- Each step either leaves round and speed alone or advances both by one. -/
theorem collectOne_round_speed (o : Oracle) (env : AudioEnv) (k : Nat)
    (s : GameState) :
    ((collectOne o env k s).round = s.round ∧
      (collectOne o env k s).enemySpeed = s.enemySpeed) ∨
    ((collectOne o env k s).round = s.round + 1 ∧
      (collectOne o env k s).enemySpeed = s.enemySpeed + 1) := by
  unfold collectOne
  rcases h : s.collectibles[k]? with _ | c <;> dsimp only
  · exact Or.inl ⟨rfl, rfl⟩
  · split
    · split
      · rcases eq_or_ne (s.collectibles.eraseIdx k) [] with he | he
        · obtain ⟨h1, _, h2, _, _⟩ := collectHit_clear o env k s he
          exact Or.inr ⟨h1, h2⟩
        · obtain ⟨h1, h2, _, _⟩ := collectHit_not_clear o env k s he
          exact Or.inl ⟨h1, h2⟩
      · exact Or.inl ⟨rfl, rfl⟩
    · exact Or.inl ⟨rfl, rfl⟩

/-- A clearance can only happen while processing index 0 of a singleton
group: any step at index `≥ 1`, or on a group whose cached length is not 1,
leaves round and speed alone. -/
theorem collectOne_no_clear (o : Oracle) (env : AudioEnv) (k : Nat)
    (s : GameState) (h : s.collectibles.length ≠ 1 ∨ 1 ≤ k) :
    (collectOne o env k s).round = s.round ∧
    (collectOne o env k s).enemySpeed = s.enemySpeed := by
  unfold collectOne
  rcases hk : s.collectibles[k]? with _ | c <;> dsimp only
  · exact ⟨rfl, rfl⟩
  · split
    · split
      · have hlt : k < s.collectibles.length := lt_length_of_getElem? hk
        have hne : s.collectibles.eraseIdx k ≠ [] := by
          intro he
          have hlen := List.length_eraseIdx_of_lt hlt
          rw [he] at hlen
          simp at hlen
          rcases h with h | h <;> omega
        obtain ⟨h1, h2, _, _⟩ := collectHit_not_clear o env k s hne
        exact ⟨h1, h2⟩
      · exact ⟨rfl, rfl⟩
    · exact ⟨rfl, rfl⟩

/-! ### Field lemmas for the enemy collision step -/

theorem damageHit_frame (env : AudioEnv) (s : GameState) :
    (damageHit env s).round = s.round ∧
    (damageHit env s).roundText = s.roundText ∧
    (damageHit env s).enemySpeed = s.enemySpeed ∧
    (damageHit env s).score = s.score ∧
    (damageHit env s).scoreText = s.scoreText ∧
    (damageHit env s).introComplete = s.introComplete ∧
    (damageHit env s).playerX = s.playerX ∧
    (damageHit env s).playerY = s.playerY := by
  unfold damageHit
  dsimp only
  repeat' split
  all_goals simp

/-- The two outcomes of a contact: with health dropping to `≤ 0` the state
becomes game over with a hidden player; otherwise only health and its HUD
string change. -/
theorem damageHit_cases (env : AudioEnv) (s : GameState) :
    (damageHit env s).health = s.health - DAMAGE_PER_ENEMY ∧
    (damageHit env s).healthText =
      "Health: " ++ toString (s.health - DAMAGE_PER_ENEMY) ∧
    (s.health - DAMAGE_PER_ENEMY ≤ 0 →
      (damageHit env s).gameOver = true ∧
      (damageHit env s).playerVisible = false) ∧
    (¬ s.health - DAMAGE_PER_ENEMY ≤ 0 →
      (damageHit env s).gameOver = s.gameOver ∧
      (damageHit env s).playerVisible = s.playerVisible) := by
  unfold damageHit
  dsimp only
  refine ⟨by split <;> simp, by split <;> simp, ?_, ?_⟩
  · intro hc
    rw [if_pos (by simpa using hc)]
    simp
  · intro hc
    rw [if_neg (by simpa using hc)]
    simp

theorem damageOne_frame (env : AudioEnv) (k : Nat) (s : GameState) :
    (damageOne env k s).round = s.round ∧
    (damageOne env k s).roundText = s.roundText ∧
    (damageOne env k s).enemySpeed = s.enemySpeed ∧
    (damageOne env k s).score = s.score ∧
    (damageOne env k s).scoreText = s.scoreText ∧
    (damageOne env k s).introComplete = s.introComplete ∧
    (damageOne env k s).playerX = s.playerX ∧
    (damageOne env k s).playerY = s.playerY := by
  unfold damageOne
  rcases hk : s.enemies[k]? with _ | e <;> dsimp only
  · simp
  · split
    · split
      · exact damageHit_frame env s
      · simp
    · simp

/-- Once the player is hidden (as the game-over transition does), a damage
step is a no-op: the transition cannot re-fire inside the same tick. -/
theorem damageOne_hidden (env : AudioEnv) (k : Nat) (s : GameState)
    (h : s.playerVisible = false) : damageOne env k s = s := by
  unfold damageOne
  rcases hk : s.enemies[k]? with _ | e <;> dsimp only
  all_goals simp [h]

/-- Invariant carried through the enemy-damage loop of the gated update:
health is a nonnegative multiple of 10, a visible player has at least one hit
of health left, zero health means the game is over, and a game-over state has
a hidden player. -/
def DamageInv (s : GameState) : Prop :=
  0 ≤ s.health ∧ s.health % 10 = 0 ∧
  (s.playerVisible = true → 10 ≤ s.health) ∧
  (s.health = 0 → s.gameOver = true ∧ s.playerVisible = false) ∧
  (s.gameOver = true → s.playerVisible = false)

theorem damageOne_inv (env : AudioEnv) (k : Nat) (s : GameState)
    (hs : DamageInv s) : DamageInv (damageOne env k s) := by
  obtain ⟨h0, h10, hpv, hz, hgo⟩ := hs
  unfold damageOne
  rcases hk : s.enemies[k]? with _ | e <;> dsimp only
  · exact ⟨h0, h10, hpv, hz, hgo⟩
  · split
    · split
      · rename_i hvis hdist
        have hpv1 : s.playerVisible = true :=
          ((Bool.and_eq_true _ _).mp hvis).2
        have hge : (10 : Int) ≤ s.health := hpv hpv1
        have hD : DAMAGE_PER_ENEMY = (10 : Int) := rfl
        obtain ⟨hh, _, hcGo, hcStay⟩ := damageHit_cases env s
        rcases le_or_lt (s.health - DAMAGE_PER_ENEMY) 0 with hle | hlt
        · obtain ⟨hg, hp⟩ := hcGo hle
          have hval : s.health - DAMAGE_PER_ENEMY = 0 := by omega
          refine ⟨by omega, by rw [hh]; omega, ?_, ?_, ?_⟩
          · intro hvt
            rw [hp] at hvt
            cases hvt
          · intro _
            exact ⟨hg, hp⟩
          · intro _
            exact hp
        · obtain ⟨hg, hp⟩ := hcStay (by omega)
          refine ⟨by omega, by rw [hh]; omega, ?_, ?_, ?_⟩
          · intro _
            rw [hh]
            omega
          · intro hvt
            rw [hh] at hvt
            omega
          · intro hgt
            rw [hg] at hgt
            rw [hp, hpv1]
            exact absurd hpv1 (by simp [hgo hgt])
      · exact ⟨h0, h10, hpv, hz, hgo⟩
    · exact ⟨h0, h10, hpv, hz, hgo⟩

/-! ### Phase-level lemmas -/

theorem movePlayer_frame (inp : Input) (s : GameState) :
    (movePlayer inp s).health = s.health ∧
    (movePlayer inp s).gameOver = s.gameOver ∧
    (movePlayer inp s).playerVisible = s.playerVisible ∧
    (movePlayer inp s).introComplete = s.introComplete ∧
    (movePlayer inp s).round = s.round ∧
    (movePlayer inp s).enemySpeed = s.enemySpeed ∧
    (movePlayer inp s).collectibles = s.collectibles ∧
    (movePlayer inp s).enemies = s.enemies :=
  ⟨rfl, rfl, rfl, rfl, rfl, rfl, rfl, rfl⟩

theorem moveEnemies_frame (o : Oracle) (s : GameState) :
    (moveEnemies o s).health = s.health ∧
    (moveEnemies o s).gameOver = s.gameOver ∧
    (moveEnemies o s).playerVisible = s.playerVisible ∧
    (moveEnemies o s).introComplete = s.introComplete ∧
    (moveEnemies o s).round = s.round ∧
    (moveEnemies o s).enemySpeed = s.enemySpeed ∧
    (moveEnemies o s).collectibles = s.collectibles ∧
    (moveEnemies o s).playerX = s.playerX ∧
    (moveEnemies o s).playerY = s.playerY :=
  ⟨rfl, rfl, rfl, rfl, rfl, rfl, rfl, rfl, rfl⟩

theorem collectPhase_frame (o : Oracle) (env : AudioEnv) (s : GameState) :
    (collectPhase o env s).health = s.health ∧
    (collectPhase o env s).gameOver = s.gameOver ∧
    (collectPhase o env s).playerVisible = s.playerVisible ∧
    (collectPhase o env s).introComplete = s.introComplete := by
  unfold collectPhase
  split
  · exact forEachIdx_inv (collectOne o env)
      (fun t => t.health = s.health ∧ t.gameOver = s.gameOver ∧
        t.playerVisible = s.playerVisible ∧ t.introComplete = s.introComplete)
      0
      (fun k t _ ht => by
        obtain ⟨f1, _, f3, f4, f5, _, _⟩ := collectOne_frame o env k t
        exact ⟨f1.trans ht.1, f3.trans ht.2.1, f4.trans ht.2.2.1,
          f5.trans ht.2.2.2⟩)
      s.collectibles.length 0 s (Nat.le_refl 0) ⟨rfl, rfl, rfl, rfl⟩
  · exact ⟨rfl, rfl, rfl, rfl⟩

theorem collectPhase_mono (o : Oracle) (env : AudioEnv) (s : GameState) :
    s.round ≤ (collectPhase o env s).round ∧
    s.enemySpeed ≤ (collectPhase o env s).enemySpeed := by
  unfold collectPhase
  split
  · exact forEachIdx_inv (collectOne o env)
      (fun t => s.round ≤ t.round ∧ s.enemySpeed ≤ t.enemySpeed) 0
      (fun k t _ ht => by
        rcases collectOne_round_speed o env k t with ⟨h1, h2⟩ | ⟨h1, h2⟩ <;>
          constructor <;> omega)
      s.collectibles.length 0 s (Nat.le_refl 0) ⟨le_refl _, le_refl _⟩
  · exact ⟨le_refl _, le_refl _⟩

/-- Per tick, the round counter and the enemy speed either both stay or both
advance by exactly one: a clearance fires at most once per tick (the
respawned collectibles are appended after the `forEach` cached its length,
so they are not revisited). -/
theorem collectPhase_cases (o : Oracle) (env : AudioEnv) (s : GameState) :
    ((collectPhase o env s).round = s.round ∧
      (collectPhase o env s).enemySpeed = s.enemySpeed) ∨
    ((collectPhase o env s).round = s.round + 1 ∧
      (collectPhase o env s).enemySpeed = s.enemySpeed + 1) := by
  unfold collectPhase
  split
  · rcases hn : s.collectibles.length with _ | m
    · exact Or.inl ⟨rfl, rfl⟩
    · rcases m with _ | m2
      · exact collectOne_round_speed o env 0 s
      · obtain ⟨h1, h2⟩ := collectOne_no_clear o env 0 s (Or.inl (by omega))
        refine Or.inl (forEachIdx_inv (collectOne o env)
          (fun t => t.round = s.round ∧ t.enemySpeed = s.enemySpeed) 1
          (fun k t hk ht => ?_) (m2 + 1) 1 (collectOne o env 0 s)
          (Nat.le_refl 1) ⟨h1, h2⟩)
        obtain ⟨g1, g2⟩ := collectOne_no_clear o env k t (Or.inr hk)
        exact ⟨g1.trans ht.1, g2.trans ht.2⟩
  · exact Or.inl ⟨rfl, rfl⟩

theorem damagePhase_frame (env : AudioEnv) (s : GameState) :
    (damagePhase env s).round = s.round ∧
    (damagePhase env s).enemySpeed = s.enemySpeed ∧
    (damagePhase env s).score = s.score ∧
    (damagePhase env s).introComplete = s.introComplete := by
  unfold damagePhase
  split
  · exact forEachIdx_inv (damageOne env)
      (fun t => t.round = s.round ∧ t.enemySpeed = s.enemySpeed ∧
        t.score = s.score ∧ t.introComplete = s.introComplete) 0
      (fun k t _ ht => by
        obtain ⟨f1, _, f3, f4, _, f6, _, _⟩ := damageOne_frame env k t
        exact ⟨f1.trans ht.1, f3.trans ht.2.1, f4.trans ht.2.2.1,
          f6.trans ht.2.2.2⟩)
      s.enemies.length 0 s (Nat.le_refl 0) ⟨rfl, rfl, rfl, rfl⟩
  · exact ⟨rfl, rfl, rfl, rfl⟩

theorem damagePhase_inv (env : AudioEnv) (s : GameState) (h : DamageInv s) :
    DamageInv (damagePhase env s) := by
  unfold damagePhase
  split
  · exact forEachIdx_inv (damageOne env) DamageInv 0
      (fun k t _ ht => damageOne_inv env k t ht)
      s.enemies.length 0 s (Nat.le_refl 0) h
  · exact h

/-! ### The top-level invariants -/

/-- The health/game-over invariant of the gated update: health is a
nonnegative multiple of 10, reaching 0 means the terminal game-over state has
been entered, and a game-over state has a hidden player.  It holds in the
initial state (health 100, not game over) and is preserved by every tick. -/
def HealthInv (s : GameState) : Prop :=
  0 ≤ s.health ∧ s.health % 10 = 0 ∧
  (s.health = 0 → s.gameOver = true) ∧
  (s.gameOver = true → s.playerVisible = false)

theorem update_healthInv (inp : Input) (env : AudioEnv) (o : Oracle)
    (s : GameState) (h : HealthInv s) : HealthInv (update inp env o s) := by
  obtain ⟨h0, h10, hz, hgo⟩ := h
  unfold update
  split
  · exact ⟨h0, h10, hz, hgo⟩
  · rename_i hng
    have hgof : s.gameOver = false := by
      revert hng
      cases s.gameOver <;> simp
    obtain ⟨m1, m2, m3, m4, _, _, _, _⟩ :=
      movePlayer_frame inp s
    set s1 := movePlayer inp s with hs1
    obtain ⟨n1, n2, n3, n4, _, _, _, _, _⟩ := moveEnemies_frame o s1
    set s2 := moveEnemies o s1 with hs2
    obtain ⟨c1, c2, c3, c4⟩ := collectPhase_frame o env s2
    set s3 := collectPhase o env s2 with hs3
    have e1 : s3.health = s.health := by rw [c1, n1, m1]
    have e2 : s3.gameOver = false := by rw [c2, n2, m2, hgof]
    have e3 : s3.playerVisible = s.playerVisible := by rw [c3, n3, m3]
    have hne : s.health ≠ 0 := fun hh => by rw [hgof] at hz; cases hz hh
    have hdi : DamageInv s3 := by
      refine ⟨by omega, by omega, ?_, ?_, ?_⟩
      · intro _
        omega
      · intro hh
        rw [e1] at hh
        exact absurd hh hne
      · intro hh
        rw [e2] at hh
        cases hh
    have := damagePhase_inv env s3 hdi
    obtain ⟨d0, d10, _, dz, dgo⟩ := this
    exact ⟨d0, d10, fun hh => (dz hh).1, dgo⟩

theorem update_mono (inp : Input) (env : AudioEnv) (o : Oracle)
    (s : GameState) :
    s.round ≤ (update inp env o s).round ∧
    s.enemySpeed ≤ (update inp env o s).enemySpeed := by
  unfold update
  split
  · exact ⟨le_refl _, le_refl _⟩
  · obtain ⟨_, _, _, _, m5, m6, _, _⟩ := movePlayer_frame inp s
    set s1 := movePlayer inp s with hs1
    obtain ⟨_, _, _, _, n5, n6, _, _, _⟩ := moveEnemies_frame o s1
    set s2 := moveEnemies o s1 with hs2
    obtain ⟨p1, p2⟩ := collectPhase_mono o env s2
    set s3 := collectPhase o env s2 with hs3
    obtain ⟨d1, d2, _, _⟩ := damagePhase_frame env s3
    constructor
    · rw [d1]
      omega
    · rw [d2]
      omega

theorem runTicks_mono (ticks : List (Input × AudioEnv × Oracle))
    (s : GameState) :
    s.round ≤ (runTicks ticks s).round ∧
    s.enemySpeed ≤ (runTicks ticks s).enemySpeed := by
  induction ticks generalizing s with
  | nil => exact ⟨le_refl _, le_refl _⟩
  | cons t ts ih =>
      obtain ⟨u1, u2⟩ := update_mono t.1 t.2.1 t.2.2 s
      obtain ⟨v1, v2⟩ := ih (update t.1 t.2.1 t.2.2 s)
      exact ⟨le_trans u1 v1, le_trans u2 v2⟩

/-! ### Reduction helpers for a fired collision test -/

theorem collectOne_hit_eq (o : Oracle) (env : AudioEnv) (k : Nat)
    (s : GameState) (c : Collectible) (hk : s.collectibles[k]? = some c)
    (hcv : c.visible = true) (hpv : s.playerVisible = true)
    (hd : distSq s.playerX s.playerY c.x c.y < COLLECTIBLE_SIZE ^ 2) :
    collectOne o env k s = collectHit o env k s := by
  unfold collectOne
  rw [hk]
  dsimp only
  rw [hcv, hpv]
  simp [hd]

theorem damageOne_hit_eq (env : AudioEnv) (k : Nat) (s : GameState)
    (e : Enemy) (hk : s.enemies[k]? = some e) (hev : e.visible = true)
    (hpv : s.playerVisible = true)
    (hd : distSq s.playerX s.playerY e.x e.y < ENEMY_SIZE ^ 2) :
    damageOne env k s = damageHit env s := by
  unfold damageOne
  rw [hk]
  dsimp only
  rw [hev, hpv]
  simp [hd]

theorem respawnCollectibles_length (o : Oracle) :
    (respawnCollectibles o).length = COLLECTIBLE_COUNT := by
  simp [respawnCollectibles]

theorem pickEnemyType_mem (n : Nat) :
    pickEnemyType n ∈
      [EnemyType.random, EnemyType.chaser, EnemyType.patrol] := by
  unfold pickEnemyType
  have h3 : n % 3 = 0 ∨ n % 3 = 1 ∨ n % 3 = 2 := by omega
  rcases h3 with h | h | h <;> rw [h] <;> decide

/-! ### The gameplay projection does not depend on the audio environment

Every branch condition of the tick reads only gameplay fields, and the beep
results are written only into the `audio` sub-record, so two runs of the same
tick under different audio environments produce the same gameplay
projection. -/

theorem movePlayer_gameplay (inp : Input) {s t : GameState}
    (h : gameplay s = gameplay t) :
    gameplay (movePlayer inp s) = gameplay (movePlayer inp t) := by
  unfold movePlayer
  simp only [gameplay, Prod.mk.injEq] at h ⊢
  obtain ⟨h1, h2, h3, h4, h5, h6, h7, h8, h9, h10, h11, h12, h13, h14⟩ := h
  exact ⟨by rw [h1], by rw [h2], h3, h4, h5, h6, h7, h8, h9, h10, h11, h12,
    h13, h14⟩

theorem moveEnemies_gameplay (o : Oracle) {s t : GameState}
    (h : gameplay s = gameplay t) :
    gameplay (moveEnemies o s) = gameplay (moveEnemies o t) := by
  unfold moveEnemies
  simp only [gameplay, Prod.mk.injEq] at h ⊢
  obtain ⟨h1, h2, h3, h4, h5, h6, h7, h8, h9, h10, h11, h12, h13, h14⟩ := h
  exact ⟨h1, h2, h3, by rw [h3, h12, h4], h5, h6, h7, h8, h9, h10, h11, h12,
    h13, h14⟩

theorem collectHit_gameplay (o : Oracle) (env env' : AudioEnv) (k : Nat)
    {s t : GameState} (h : gameplay s = gameplay t) :
    gameplay (collectHit o env k s) = gameplay (collectHit o env' k t) := by
  unfold collectHit
  dsimp only
  simp only [gameplay, Prod.mk.injEq] at h
  obtain ⟨h1, h2, h3, h4, h5, h6, h7, h8, h9, h10, h11, h12, h13, h14⟩ := h
  simp only [h1, h2, h3, h4, h5, h6, h7, h8, h9, h10, h11, h12, h13, h14]
  split
  · split
    · rfl
    · rfl
  · rfl

theorem collectOne_gameplay (o : Oracle) (env env' : AudioEnv) (k : Nat)
    {s t : GameState} (h : gameplay s = gameplay t) :
    gameplay (collectOne o env k s) = gameplay (collectOne o env' k t) := by
  have hfields := h
  simp only [gameplay, Prod.mk.injEq] at hfields
  obtain ⟨h1, h2, h3, _, h5, _, _, _, _, _, _, _, _, _⟩ := hfields
  unfold collectOne
  rw [h5]
  rcases hk : t.collectibles[k]? with _ | c <;> dsimp only
  · exact h
  · rw [h3, h1, h2]
    split
    · split
      · exact collectHit_gameplay o env env' k h
      · exact h
    · exact h

theorem damageHit_gameplay (env env' : AudioEnv) {s t : GameState}
    (h : gameplay s = gameplay t) :
    gameplay (damageHit env s) = gameplay (damageHit env' t) := by
  unfold damageHit
  dsimp only
  simp only [gameplay, Prod.mk.injEq] at h
  obtain ⟨h1, h2, h3, h4, h5, h6, h7, h8, h9, h10, h11, h12, h13, h14⟩ := h
  simp only [h1, h2, h3, h4, h5, h6, h7, h8, h9, h10, h11, h12, h13, h14]
  split
  · rfl
  · rfl

theorem damageOne_gameplay (env env' : AudioEnv) (k : Nat)
    {s t : GameState} (h : gameplay s = gameplay t) :
    gameplay (damageOne env k s) = gameplay (damageOne env' k t) := by
  have hfields := h
  simp only [gameplay, Prod.mk.injEq] at hfields
  obtain ⟨h1, h2, h3, h4, _, _, _, _, _, _, _, _, _, _⟩ := hfields
  unfold damageOne
  rw [h4]
  rcases hk : t.enemies[k]? with _ | e <;> dsimp only
  · exact h
  · rw [h3, h1, h2]
    split
    · split
      · exact damageHit_gameplay env env' h
      · exact h
    · exact h

theorem forEachIdx_gameplay (step step' : Nat → GameState → GameState)
    (hstep : ∀ (k : Nat) {s t : GameState}, gameplay s = gameplay t →
      gameplay (step k s) = gameplay (step' k t)) :
    ∀ (fuel k : Nat) {s t : GameState}, gameplay s = gameplay t →
      gameplay (forEachIdx step fuel k s) =
        gameplay (forEachIdx step' fuel k t) := by
  intro fuel
  induction fuel with
  | zero => intro k s t h; exact h
  | succ n ih => intro k s t h; exact ih (k + 1) (hstep k h)

theorem collectPhase_gameplay (o : Oracle) (env env' : AudioEnv)
    {s t : GameState} (h : gameplay s = gameplay t) :
    gameplay (collectPhase o env s) = gameplay (collectPhase o env' t) := by
  have hfields := h
  simp only [gameplay, Prod.mk.injEq] at hfields
  obtain ⟨_, _, _, _, h5, _, _, _, _, _, _, _, h13, h14⟩ := hfields
  unfold collectPhase
  rw [h13, h14, h5]
  split
  · exact forEachIdx_gameplay (collectOne o env) (collectOne o env')
      (fun k {u v} hu => collectOne_gameplay o env env' k hu)
      t.collectibles.length 0 h
  · exact h

theorem damagePhase_gameplay (env env' : AudioEnv) {s t : GameState}
    (h : gameplay s = gameplay t) :
    gameplay (damagePhase env s) = gameplay (damagePhase env' t) := by
  have hfields := h
  simp only [gameplay, Prod.mk.injEq] at hfields
  obtain ⟨_, _, _, h4, _, _, _, _, _, _, _, _, h13, h14⟩ := hfields
  unfold damagePhase
  rw [h13, h14, h4]
  split
  · exact forEachIdx_gameplay (damageOne env) (damageOne env')
      (fun k {u v} hu => damageOne_gameplay env env' k hu)
      t.enemies.length 0 h
  · exact h

theorem update_gameplay (inp : Input) (env env' : AudioEnv) (o : Oracle)
    (s : GameState) :
    gameplay (update inp env o s) = gameplay (update inp env' o s) := by
  unfold update
  split
  · rfl
  · exact damagePhase_gameplay env env'
      (collectPhase_gameplay o env env'
        (moveEnemies_gameplay o (movePlayer_gameplay inp rfl)))

/-! ### The claims -/

/-- Claim C1, counterexample: the claim says enemy contact clamps health at 0
so health never goes below 0.  No revision of the code clamps: contact does
`health -= 10`.  In the earlier revision's update (the lines the claim cites),
whose enemy loop has no visibility gate, a tick from a live state with health
10 and two enemies in contact first drives health to 0 (setting game over) and
then, still inside the same tick, to -10. -/
theorem C1_counterexample :
    sNeg.health = 10 ∧ sNeg.gameOver = false ∧
    (updateV1 inp0 env0 oracle0 sNeg).health = -10 ∧
    ¬ 0 ≤ (updateV1 inp0 env0 oracle0 sNeg).health := by decide

/-- Claim C1, amended: in the later (visibility-gated) revision health is
never driven below 0 — not because of a clamp, but because health starts as a
nonnegative multiple of 10, every contact subtracts exactly 10, and the tick
in which health reaches 0 enters the terminal game-over state and hides the
player so that no further contact fires.  Formally, `HealthInv` (health is a
nonnegative multiple of 10, zero health implies the game-over flag, game over
implies hidden player) holds initially and is preserved by every tick, and in
particular health stays `≥ 0`. -/
theorem C1_health_never_negative (inp : Input) (env : AudioEnv) (o : Oracle)
    (s : GameState) (h : HealthInv s) :
    0 ≤ (update inp env o s).health ∧ HealthInv (update inp env o s) :=
  ⟨(update_healthInv inp env o s h).1, update_healthInv inp env o s h⟩

/-- Witness for C1 at the concrete full-health state: one tick with an enemy
in contact keeps the invariant and nonnegative health. -/
theorem C1_health_never_negative_witness :
    0 ≤ (update inp0 env0 oracle0 sC2).health ∧
    HealthInv (update inp0 env0 oracle0 sC2) :=
  C1_health_never_negative inp0 env0 oracle0 sC2
    ⟨by decide, by decide, fun h => absurd h (by decide),
     fun h => absurd h (by decide)⟩

/-- Claim C2: each enemy-contact event while health is positive subtracts
exactly the fixed damage (10) and displays the new value; when the subtraction
drives health to `≤ 0` that same contact performs the game-over transition —
it sets the game-over flag and hides the player — and otherwise it leaves both
untouched; the transition happens exactly once: once the player has been
hidden by it, further damage steps in the same tick are no-ops, and in later
ticks a game-over state is completely frozen.  Concretely, from health 100 one
enemy contact yields health 90 and the HUD string "Health: 90". -/
theorem C2_damage_and_gameover :
    (∀ (env : AudioEnv) (k : Nat) (s : GameState) (e : Enemy),
      s.enemies[k]? = some e → e.visible = true → s.playerVisible = true →
      distSq s.playerX s.playerY e.x e.y < ENEMY_SIZE ^ 2 → 0 < s.health →
      (damageOne env k s).health = s.health - DAMAGE_PER_ENEMY ∧
      (damageOne env k s).healthText =
        "Health: " ++ toString (s.health - DAMAGE_PER_ENEMY) ∧
      (s.health - DAMAGE_PER_ENEMY ≤ 0 →
        (damageOne env k s).gameOver = true ∧
        (damageOne env k s).playerVisible = false) ∧
      (¬ s.health - DAMAGE_PER_ENEMY ≤ 0 →
        (damageOne env k s).gameOver = s.gameOver ∧
        (damageOne env k s).playerVisible = s.playerVisible)) ∧
    (∀ (env : AudioEnv) (k : Nat) (s : GameState),
      s.playerVisible = false → damageOne env k s = s) ∧
    (∀ (inp : Input) (env : AudioEnv) (o : Oracle) (s : GameState),
      s.gameOver = true → update inp env o s = s) ∧
    ((update inp0 env0 oracle0 sC2).health = 90 ∧
      (update inp0 env0 oracle0 sC2).healthText = "Health: 90" ∧
      sC2.health = 100) := by
  refine ⟨?_, ?_, ?_, by decide, by decide, by decide⟩
  · intro env k s e hk hev hpv hd _
    rw [damageOne_hit_eq env k s e hk hev hpv hd]
    exact damageHit_cases env s
  · intro env k s h
    exact damageOne_hidden env k s h
  · intro inp env o s h
    unfold update
    simp [h]

/-- Witness for C2: the contact step at full health, the game-over transition
fired by a contact at health 10, the no-op step with a hidden player, and a
frozen later tick, all at concrete states. -/
theorem C2_witness :
    (damageOne env0 0 sC2).health = sC2.health - DAMAGE_PER_ENEMY ∧
    ((damageOne env0 0 sNeg).gameOver = true ∧
      (damageOne env0 0 sNeg).playerVisible = false) ∧
    damageOne env0 0 { sC2 with playerVisible := false } =
      { sC2 with playerVisible := false } ∧
    update inp0 env0 oracle0 { baseState with gameOver := true, health := 40 } =
      { baseState with gameOver := true, health := 40 } :=
  ⟨(C2_damage_and_gameover.1 env0 0 sC2 eAt (by decide) (by decide) (by decide)
      (by decide) (by decide)).1,
   (C2_damage_and_gameover.1 env0 0 sNeg eAt (by decide) (by decide) (by decide)
      (by decide) (by decide)).2.2.1 (by decide),
   C2_damage_and_gameover.2.1 env0 0 _ (by decide),
   C2_damage_and_gameover.2.2.1 inp0 env0 oracle0 _ (by decide)⟩

/-- Claim C3: after the movement phase of any tick, under every input and
every randomness draw, the player's coordinates and every enemy's coordinates
lie within the configured bounds rectangle — clamped between the 32-pixel
size margin and width/height minus that margin. -/
theorem C3_movement_bounds (inp : Input) (o : Oracle) (s : GameState) :
    (PLAYER_SIZE ≤ (moveEnemies o (movePlayer inp s)).playerX ∧
      (moveEnemies o (movePlayer inp s)).playerX ≤ WIDTH - PLAYER_SIZE) ∧
    (PLAYER_SIZE ≤ (moveEnemies o (movePlayer inp s)).playerY ∧
      (moveEnemies o (movePlayer inp s)).playerY ≤ HEIGHT - PLAYER_SIZE) ∧
    ∀ e ∈ (moveEnemies o (movePlayer inp s)).enemies,
      (PLAYER_SIZE ≤ e.x ∧ e.x ≤ WIDTH - PLAYER_SIZE) ∧
      (PLAYER_SIZE ≤ e.y ∧ e.y ≤ HEIGHT - PLAYER_SIZE) := by
  obtain ⟨_, _, _, _, _, _, _, px, py⟩ :=
    moveEnemies_frame o (movePlayer inp s)
  refine ⟨?_, ?_, ?_⟩
  · rw [px]
    exact (movePlayer_bounds inp s).1
  · rw [py]
    exact (movePlayer_bounds inp s).2
  · intro e he
    obtain ⟨j, e0, rfl⟩ := moveEnemiesFrom_mem o _ _ _ _ e he
    exact ⟨(moveEnemy_bounds o _ _ j e0).1, (moveEnemy_bounds o _ _ j e0).2⟩

/-- Witness for C3: the bounds at a concrete state whose single enemy is a
member of the moved enemy list. -/
theorem C3_witness :
    (PLAYER_SIZE ≤ (moveEnemies oracle0 (movePlayer inp0 sC2)).playerX ∧
      (moveEnemies oracle0 (movePlayer inp0 sC2)).playerX ≤
        WIDTH - PLAYER_SIZE) ∧
    (PLAYER_SIZE ≤ eAt.x ∧ eAt.x ≤ WIDTH - PLAYER_SIZE) ∧
    (PLAYER_SIZE ≤ eAt.y ∧ eAt.y ≤ HEIGHT - PLAYER_SIZE) :=
  ⟨(C3_movement_bounds inp0 oracle0 sC2).1,
   (C3_movement_bounds inp0 oracle0 sC2).2.2 eAt (by decide)⟩

/-- Claim C4: a collision event with a collectible within the threshold
distance (`COLLECTIBLE_SIZE = 32`) adds exactly the fixed reward
(`SCORE_PER_COLLECTIBLE = 10`) to the score and removes exactly that one
collectible: the group shrinks by exactly one at the removal, and the
post-step group is the erased group — except that removing the last
collectible triggers the respawn of the full fresh set. -/
theorem C4_collect_reward (o : Oracle) (env : AudioEnv) (k : Nat)
    (s : GameState) (c : Collectible) (hk : s.collectibles[k]? = some c)
    (hcv : c.visible = true) (hpv : s.playerVisible = true)
    (hd : distSq s.playerX s.playerY c.x c.y < COLLECTIBLE_SIZE ^ 2) :
    (collectOne o env k s).score = s.score + SCORE_PER_COLLECTIBLE ∧
    (s.collectibles.eraseIdx k).length + 1 = s.collectibles.length ∧
    ((collectOne o env k s).collectibles = s.collectibles.eraseIdx k ∨
      (s.collectibles.eraseIdx k = [] ∧
        (collectOne o env k s).collectibles = respawnCollectibles o)) := by
  have hcol := collectOne_hit_eq o env k s c hk hcv hpv hd
  have hlt : k < s.collectibles.length := lt_length_of_getElem? hk
  refine ⟨?_, ?_, ?_⟩
  · rw [hcol]
    exact collectHit_score o env k s
  · have := List.length_eraseIdx_of_lt hlt
    omega
  · rcases eq_or_ne (s.collectibles.eraseIdx k) [] with he | he
    · refine Or.inr ⟨he, ?_⟩
      rw [hcol]
      exact (collectHit_clear o env k s he).2.2.2.1
    · refine Or.inl ?_
      rw [hcol]
      exact (collectHit_not_clear o env k s he).2.2.1

/-- Witness for C4: collecting the single collectible sitting on the player. -/
theorem C4_witness :
    (collectOne oracle0 env0 0 sClear).score =
      sClear.score + SCORE_PER_COLLECTIBLE ∧
    (sClear.collectibles.eraseIdx 0).length + 1 =
      sClear.collectibles.length :=
  ⟨(C4_collect_reward oracle0 env0 0 sClear cAt (by decide) (by decide)
      (by decide) (by decide)).1,
   (C4_collect_reward oracle0 env0 0 sClear cAt (by decide) (by decide)
      (by decide) (by decide)).2.1⟩

/-- Claim C5: when a collection empties the collectible group, the round
counter increments by exactly 1 and the enemy speed by exactly 1, the full set
of `COLLECTIBLE_COUNT = 10` collectibles is respawned in the same handler, and
this happens exactly once per clearance — a clearance can only fire while
processing index 0 of a singleton group (so the cached `forEach` bound has
been exhausted and the respawned collectibles are not revisited), a
non-clearing collection changes neither round nor speed, and over a whole tick
round and speed either both stay or both advance by exactly one. -/
theorem C5_round_clearance :
    (∀ (o : Oracle) (env : AudioEnv) (k : Nat) (s : GameState)
      (c : Collectible), s.collectibles[k]? = some c → c.visible = true →
      s.playerVisible = true →
      distSq s.playerX s.playerY c.x c.y < COLLECTIBLE_SIZE ^ 2 →
      (s.collectibles.eraseIdx k = [] →
        (collectOne o env k s).round = s.round + 1 ∧
        (collectOne o env k s).enemySpeed = s.enemySpeed + 1 ∧
        (collectOne o env k s).collectibles.length = COLLECTIBLE_COUNT ∧
        s.collectibles.length = 1 ∧ k = 0) ∧
      (s.collectibles.eraseIdx k ≠ [] →
        (collectOne o env k s).round = s.round ∧
        (collectOne o env k s).enemySpeed = s.enemySpeed)) ∧
    (∀ (o : Oracle) (env : AudioEnv) (s : GameState),
      ((collectPhase o env s).round = s.round ∧
        (collectPhase o env s).enemySpeed = s.enemySpeed) ∨
      ((collectPhase o env s).round = s.round + 1 ∧
        (collectPhase o env s).enemySpeed = s.enemySpeed + 1)) := by
  constructor
  · intro o env k s c hk hcv hpv hd
    have hcol := collectOne_hit_eq o env k s c hk hcv hpv hd
    have hlt : k < s.collectibles.length := lt_length_of_getElem? hk
    constructor
    · intro he
      obtain ⟨h1, _, h3, h4, _⟩ := collectHit_clear o env k s he
      have hlen := List.length_eraseIdx_of_lt hlt
      rw [he] at hlen
      simp at hlen
      refine ⟨by rw [hcol]; exact h1, by rw [hcol]; exact h3, ?_, by omega,
        by omega⟩
      rw [hcol, h4]
      exact respawnCollectibles_length o
    · intro he
      obtain ⟨h1, h2, _, _⟩ := collectHit_not_clear o env k s he
      exact ⟨by rw [hcol]; exact h1, by rw [hcol]; exact h2⟩
  · intro o env s
    exact collectPhase_cases o env s

/-- Witness for C5: clearing the last collectible of round 1 advances round
and speed by one and respawns ten collectibles; the tick-level disjunction at
the same state. -/
theorem C5_witness :
    (collectOne oracle0 env0 0 sClear).round = sClear.round + 1 ∧
    (collectOne oracle0 env0 0 sClear).enemySpeed = sClear.enemySpeed + 1 ∧
    (collectOne oracle0 env0 0 sClear).collectibles.length =
      COLLECTIBLE_COUNT ∧
    (((collectPhase oracle0 env0 sClear).round = sClear.round ∧
        (collectPhase oracle0 env0 sClear).enemySpeed = sClear.enemySpeed) ∨
      ((collectPhase oracle0 env0 sClear).round = sClear.round + 1 ∧
        (collectPhase oracle0 env0 sClear).enemySpeed =
          sClear.enemySpeed + 1)) := by
  have h := (C5_round_clearance.1 oracle0 env0 0 sClear cAt (by decide)
    (by decide) (by decide) (by decide)).1 (by decide)
  exact ⟨h.1, h.2.1, h.2.2.1, C5_round_clearance.2 oracle0 env0 sClear⟩

/-- Claim C6: a round clearance whose resulting round number is at least 2
appends exactly one new enemy to the enemy group, and its type is drawn from
the set {random, chaser, patrol}; in particular clearing round 1 makes the
round 2 and adds one such enemy. -/
theorem C6_new_enemy_on_clearance (o : Oracle) (env : AudioEnv) (k : Nat)
    (s : GameState) (c : Collectible) (hk : s.collectibles[k]? = some c)
    (hcv : c.visible = true) (hpv : s.playerVisible = true)
    (hd : distSq s.playerX s.playerY c.x c.y < COLLECTIBLE_SIZE ^ 2)
    (hclear : s.collectibles.eraseIdx k = []) (hround : 1 ≤ s.round) :
    (collectOne o env k s).round = s.round + 1 ∧
    2 ≤ (collectOne o env k s).round ∧
    (collectOne o env k s).enemies = s.enemies ++ [mkNewEnemy o] ∧
    (mkNewEnemy o).etype ∈
      [EnemyType.random, EnemyType.chaser, EnemyType.patrol] := by
  have hcol := collectOne_hit_eq o env k s c hk hcv hpv hd
  obtain ⟨h1, _, _, _, h5, _⟩ := collectHit_clear o env k s hclear
  refine ⟨by rw [hcol]; exact h1, by rw [hcol, h1]; omega, ?_,
    pickEnemyType_mem o.pickType⟩
  rw [hcol]
  exact h5 (by omega)

/-- Witness for C6: clearing round 1 at a concrete state. -/
theorem C6_witness :
    (collectOne oracle0 env0 0 sClear).round = sClear.round + 1 ∧
    (collectOne oracle0 env0 0 sClear).enemies =
      sClear.enemies ++ [mkNewEnemy oracle0] :=
  ⟨(C6_new_enemy_on_clearance oracle0 env0 0 sClear cAt (by decide)
      (by decide) (by decide) (by decide) (by decide) (by decide)).1,
   (C6_new_enemy_on_clearance oracle0 env0 0 sClear cAt (by decide)
      (by decide) (by decide) (by decide) (by decide) (by decide)).2.2.1⟩

/-- Claim C7: across every tick and every sequence of ticks, the round
counter never decreases and the enemy speed never decreases. -/
theorem C7_round_speed_monotone :
    (∀ (inp : Input) (env : AudioEnv) (o : Oracle) (s : GameState),
      s.round ≤ (update inp env o s).round ∧
      s.enemySpeed ≤ (update inp env o s).enemySpeed) ∧
    (∀ (ticks : List (Input × AudioEnv × Oracle)) (s : GameState),
      s.round ≤ (runTicks ticks s).round ∧
      s.enemySpeed ≤ (runTicks ticks s).enemySpeed) :=
  ⟨update_mono, runTicks_mono⟩

/-- Claim C8: audio-context initialisation is idempotent — when a context
already exists, `init` constructs no second context (the construction counter
is unchanged and the held context keeps its identity, at most its
suspended/running state changes) — and a `createBeep` call issued before the
audio has been unlocked by a user gesture returns with the state unchanged
and no tone produced. -/
theorem C8_audio_idempotent_and_gated :
    (∀ (env : AudioEnv) (a : AudioState) (ctx : AudioCtx),
      a.audioContext = some ctx →
      (AudioSystem.init env a).nextCtxId = a.nextCtxId ∧
      ∃ st, (AudioSystem.init env a).audioContext =
        some { id := ctx.id, ctxState := st }) ∧
    (∀ (env : AudioEnv) (f d : Rat) (w : String) (v : Rat) (a : AudioState),
      a.isAudioUnlocked = false →
      AudioSystem.createBeep env f d w v a = (a, [])) := by
  constructor
  · intro env a ctx hctx
    unfold AudioSystem.init
    rw [hctx]
    dsimp only
    split
    · exact ⟨rfl, CtxState.running, rfl⟩
    · refine ⟨rfl, ctx.ctxState, ?_⟩
      rw [hctx]
  · intro env f d w v a h
    unfold AudioSystem.createBeep
    simp [h]

/-- Witness for C8: `init` on an audio state that already holds a context,
and a locked `createBeep`. -/
theorem C8_witness :
    (AudioSystem.init env0 aRunning).nextCtxId = aRunning.nextCtxId ∧
    (∃ st, (AudioSystem.init env0 aRunning).audioContext =
      some { id := 0, ctxState := st }) ∧
    AudioSystem.createBeep env0 800 (1 / 10) "square" (3 / 20) audioLocked =
      (audioLocked, []) :=
  ⟨(C8_audio_idempotent_and_gated.1 env0 aRunning
      { id := 0, ctxState := CtxState.running } rfl).1,
   (C8_audio_idempotent_and_gated.1 env0 aRunning
      { id := 0, ctxState := CtxState.running } rfl).2,
   C8_audio_idempotent_and_gated.2 env0 800 (1 / 10) "square" (3 / 20)
     audioLocked rfl⟩

/-- Claim C9: audio failures are caught and silently ignored.  A throwing
`AudioContext` constructor makes `init` return normally with only the
initialised flag cleared; `createBeep` always returns normally with, at most,
the initialisation side effect on the audio state; a failing playback
produces no tone; and the gameplay projection of any tick is identical under
any two audio environments — the game continues unchanged without sound. -/
theorem C9_audio_failures_ignored :
    (∀ (env : AudioEnv) (a : AudioState),
      a.audioContext = none → env.ctorFails = true →
      AudioSystem.init env a = { a with isAudioInitialized := false }) ∧
    (∀ (env : AudioEnv) (f d : Rat) (w : String) (v : Rat) (a : AudioState),
      (AudioSystem.createBeep env f d w v a).1 = a ∨
      (AudioSystem.createBeep env f d w v a).1 = AudioSystem.init env a) ∧
    (∀ (env : AudioEnv) (f d : Rat) (w : String) (v : Rat) (a : AudioState),
      env.beepFails = true → (AudioSystem.createBeep env f d w v a).2 = []) ∧
    (∀ (inp : Input) (env env' : AudioEnv) (o : Oracle) (s : GameState),
      gameplay (update inp env o s) = gameplay (update inp env' o s)) := by
  refine ⟨?_, ?_, ?_, ?_⟩
  · intro env a hnone hfail
    unfold AudioSystem.init
    rw [hnone]
    dsimp only
    rw [if_pos hfail]
  · intro env f d w v a
    unfold AudioSystem.createBeep
    dsimp only
    split
    · exact Or.inl rfl
    · split
      · repeat' split
        all_goals exact Or.inr rfl
      · repeat' split
        all_goals exact Or.inl rfl
  · intro env f d w v a hb
    unfold AudioSystem.createBeep
    dsimp only
    repeat' split
    all_goals simp_all
  · intro inp env env' o s
    exact update_gameplay inp env env' o s

/-- Witness for C9: a throwing constructor and a failing playback at concrete
audio states, and the env-independence of a concrete tick. -/
theorem C9_witness :
    AudioSystem.init envCtorFail audioLocked =
      { audioLocked with isAudioInitialized := false } ∧
    (AudioSystem.createBeep envFail 400 (2 / 10) "sawtooth" (2 / 10)
      audioLocked).2 = [] ∧
    gameplay (update inp0 envFail oracle0 sC2) =
      gameplay (update inp0 env0 oracle0 sC2) :=
  ⟨C9_audio_failures_ignored.1 envCtorFail audioLocked rfl rfl,
   C9_audio_failures_ignored.2.2.1 envFail 400 (2 / 10) "sawtooth" (2 / 10)
     audioLocked rfl,
   C9_audio_failures_ignored.2.2.2 inp0 envFail env0 oracle0 sC2⟩

/-- Claim C10: once the game-over flag is set, a tick returns immediately and
the entire game state — score, health, round, enemy speed, the flag itself,
and all player/enemy/collectible data — is unchanged. -/
theorem C10_gameover_frozen (inp : Input) (env : AudioEnv) (o : Oracle)
    (s : GameState) (h : s.gameOver = true) : update inp env o s = s := by
  unfold update
  simp [h]

/-- Witness for C10: a concrete game-over state is frozen by a tick. -/
theorem C10_witness : update inp0 env0 oracle0 sOver = sOver :=
  C10_gameover_frozen inp0 env0 oracle0 sOver rfl

end RetroArcade
